import Mathlib

/-!
# SimpleImage tool — shallow embedding and verification

This file embeds the `SimpleImage` Editor.js tool of this repository
(`src/unnamed/part_000`, `src/unnamed/part_001`, and the built bundles
`src/unnamed/part_002` / `src/dist/bundle.js`) in Lean 4 and proves the
specification claims about it.

The tool is UI glue: it keeps a `{url}` data record, builds a DOM `img`
element from the url, registers `onload`/`onerror` handlers that populate
natural dimensions resp. reject a promise, saves by reading the first
`img` descendant of the block, and reacts to `tag`/`pattern`/`file` paste
events.  Browser-native pieces (DOM element creation, `FileReader`,
promise settlement) are modelled by explicit event values fed to the
handler functions the code installs; host callbacks (`config.view`,
`config.onpaste`, `config.initialize`) are modelled as effects recorded in
the result of each operation.
-/

namespace SimpleImage

/-- The tool's data record (`SimpleImageData`): a JS object with a string
`url` and optional numeric `naturalWidth` / `naturalHeight`.  `none`
models a field that is absent from the object. -/
structure SimpleImageData where
  url : Option String := none
  naturalWidth : Option Nat := none
  naturalHeight : Option Nat := none
deriving Repr, DecidableEq

/-- JS truthiness of `data.url`: the field is present and a nonempty
string. -/
def dataUrlTruthy (d : SimpleImageData) : Bool :=
  match d.url with
  | some s => decide (s ≠ "")
  | none => false

/-- `Object.assign({}, old, patch)` (and `Object.assign(old, patch)` up to
the mutation of `old`): every field present in `patch` overwrites the one
in `old`; fields absent from `patch` are kept from `old`. -/
def objAssign (old patch : SimpleImageData) : SimpleImageData :=
  { url := patch.url <|> old.url
    naturalWidth := patch.naturalWidth <|> old.naturalWidth
    naturalHeight := patch.naturalHeight <|> old.naturalHeight }

/-- A DOM `img` element, reduced to the one attribute the tool reads and
writes: its `src`. -/
structure ImgElement where
  src : String
deriving Repr, DecidableEq

/-- `blockContent.querySelector('img')`: the first `img` descendant of the
block's wrapper element in document order, if any.  The wrapper's `img`
descendants are modelled as the list of them in document order. -/
def querySelectorImg (blockContent : List ImgElement) : Option ImgElement :=
  blockContent.head?

/-- `save(blockContent)` (identical in `part_000` lines 102–112,
`part_001` lines 81–91 and both bundles): look up the first `img`
descendant; without one, return the stored data unchanged, otherwise
return the stored data with `url` overwritten by the element's `src`
(via `Object.assign(this.data, { url: image.src })`). -/
def save (d : SimpleImageData) (blockContent : List ImgElement) : SimpleImageData :=
  match querySelectorImg blockContent with
  | none => d
  | some image => objAssign d { url := some image.src }

/-- The slice of the Editor.js host `api` that the tool uses:
`api.blocks.getCurrentBlockIndex()`. -/
structure Api where
  currentBlockIndex : Int
deriving Repr, DecidableEq

/-- The host-supplied `config` object, reduced to which of its optional
callbacks the host supplied.  The mandatory `config.view` callback is
passed to the operations as an explicit function; `config.initialize` and
`config.onpaste` are optional, and their invocations are recorded as
effects in each operation's result. -/
structure Config where
  hasInitialize : Bool
  hasOnpaste : Bool
deriving Repr, DecidableEq

/-- The tool instance's own state: `this.id`, `this.blockIndex` and
`this._data` (in the `part_000` variant the record is stored in
`this.data` directly; the getter/setter variant of `part_001`/`part_002`
stores it in `this._data`). -/
structure ToolState where
  id : String
  blockIndex : Int
  _data : SimpleImageData
deriving Repr, DecidableEq

/-- The plugin-context record the tool passes to the host's
`config.initialize` and `config.onpaste` callbacks: `{ pluginId,
pluginApi, pluginBlockIndex, pluginData, pluginUserConfig }`. -/
structure PluginCtx where
  pluginId : String
  pluginApi : Api
  pluginBlockIndex : Int
  pluginData : SimpleImageData
  pluginUserConfig : Config
deriving Repr, DecidableEq

/-- The argument record `render` passes to the host's `config.view`
callback (`part_001` lines 65–72): the plugin context plus the created
image element and its load promise.  `pluginImage = none` models passing
`undefined`, and `pluginImagePromise = false` models passing `undefined`
for the promise (it is only defined when an image was created). -/
structure ViewCtx where
  pluginId : String
  pluginApi : Api
  pluginData : SimpleImageData
  pluginUserConfig : Config
  pluginImage : Option ImgElement
  pluginImagePromise : Bool
deriving Repr, DecidableEq

/-- The image element `render` creates (`part_001` lines 50–52): only
when `this.data.url` is truthy, `document.createElement('img')` with
`image.src = this.data.url`; otherwise `image` stays `undefined`. -/
def mkRenderImage (d : SimpleImageData) : Option ImgElement :=
  match d.url with
  | some s => if s = "" then none else some { src := s }
  | none => none

/-- The argument `render` hands to `config.view` for a given tool state:
id, api, current data record, user config, plus the created image and
the definedness of its load promise. -/
def renderCtx (st : ToolState) (api : Api) (cfg : Config) : ViewCtx :=
  { pluginId := st.id
    pluginApi := api
    pluginData := st._data
    pluginUserConfig := cfg
    pluginImage := mkRenderImage st._data
    pluginImagePromise := (mkRenderImage st._data).isSome }

/-- What a call to `render` produces synchronously: the (unchanged) tool
state, the created image element (if any), whether a load promise was
created, and the value returned to the caller — the result of the host's
`config.view` callback. -/
structure RenderResult (α : Type) where
  newState : ToolState
  image : Option ImgElement
  promiseCreated : Bool
  returned : α
deriving Repr, DecidableEq

/-- `render()` (`part_001` lines 46–73): if `this.data.url` is truthy,
create the image element and its load promise; then return
`this.config.view({...})`.  The synchronous body never writes the data
record (only the `onload` handler, modelled by `renderImageEvent`,
does), so `newState` is the input state. -/
def render {α : Type} (st : ToolState) (api : Api) (cfg : Config)
    (view : ViewCtx → α) : RenderResult α :=
  { newState := st
    image := mkRenderImage st._data
    promiseCreated := (mkRenderImage st._data).isSome
    returned := view (renderCtx st api cfg) }

/-- The settlement state of a JS promise. -/
inductive PromiseState (α : Type) where
  | pending
  | resolved (value : α)
  | rejected
deriving Repr, DecidableEq

/-- An event the browser delivers to the image element created by
`render`: the `load` event (carrying the element's natural dimensions)
or the `error` event. -/
inductive ImgEvent where
  | load (naturalWidth naturalHeight : Nat)
  | error
deriving Repr, DecidableEq

/-- The handlers `render` installs on the created image (`part_001`
lines 54–62): `onload` writes `this._data.naturalWidth` and
`this._data.naturalHeight` from the element's natural dimensions and
resolves the promise with the element; `onerror` is the promise's
`reject` — the state is untouched and nothing else (no retry, no
recovery) happens. -/
def renderImageEvent (st : ToolState) (image : ImgElement) :
    ImgEvent → ToolState × PromiseState ImgElement
  | ImgEvent.load w h =>
      ({ st with _data := { st._data with naturalWidth := some w, naturalHeight := some h } },
        PromiseState.resolved image)
  | ImgEvent.error => (st, PromiseState.rejected)

/-- What an assignment `this.data = patch` produces: the new tool state
and, when the setter re-rendered, the render's result. -/
structure SetDataResult (α : Type) where
  newState : ToolState
  rendered : Option (RenderResult α)
deriving Repr, DecidableEq

/-- The `data` setter (`part_001` lines 171–177, identical in
`part_002`): `this._data = Object.assign({}, this.data, data)`, then
`if (this.data.url) this.render()`. -/
def setData {α : Type} (st : ToolState) (api : Api) (cfg : Config)
    (view : ViewCtx → α) (patch : SimpleImageData) : SetDataResult α :=
  let merged := objAssign st._data patch
  let st' : ToolState := { st with _data := merged }
  { newState := st'
    rendered := if dataUrlTruthy merged then some (render st' api cfg view) else none }

/-- A pasted or dropped file, reduced to what the tool observes of it:
the data URL that `FileReader.readAsDataURL` produces from its
contents (a browser-native encoding, carried here as a field). -/
structure File where
  dataURL : String
deriving Repr, DecidableEq

/-- An event the `FileReader` delivers after `readAsDataURL`: `load`
with `event.target.result`, or `error`. -/
inductive ReaderEvent where
  | load (result : String)
  | error
deriving Repr, DecidableEq

/-- The settlement of the promise `onDropHandler` returns (`part_001`
lines 109–121): the executor only registers `reader.onload`, which
resolves with `{ url: event.target.result }`.  No handler is attached to
the reader's `error` event and `reject` is never captured, so on `error`
(or before any event) the promise stays pending. -/
def onDropHandlerPromise : Option ReaderEvent → PromiseState SimpleImageData
  | some (ReaderEvent.load result) => PromiseState.resolved { url := some result }
  | some ReaderEvent.error => PromiseState.pending
  | none => PromiseState.pending

/-- The reader `load` event that a successful `readAsDataURL` of `f`
delivers: its `target.result` is the file's contents encoded as a data
URL. -/
def readerLoadEvent (f : File) : ReaderEvent :=
  ReaderEvent.load f.dataURL

/-- A paste event handed to `onPaste`, in its three variants
(`event.type` with `event.detail`): a matched `img` tag, a matched URL
pattern (the matched text), or a pasted/dropped file. -/
inductive PasteEvent where
  | tag (image : ImgElement)
  | pattern (text : String)
  | file (f : File)
deriving Repr, DecidableEq

/-- The context `onPaste`'s `onpaste` helper passes to the host's
`config.onpaste` callback (built bundle `part_002`): the plugin context
with `pluginData` read from the current `this._data`. -/
def onpasteCtxOf (st : ToolState) (api : Api) (cfg : Config) : PluginCtx :=
  { pluginId := st.id
    pluginApi := api
    pluginBlockIndex := st.blockIndex
    pluginData := st._data
    pluginUserConfig := cfg }

/-- What one `onPaste` step produces: the new tool state, the re-render
triggered by the `data` setter (if any), and the invocation of the
host's `config.onpaste` callback (if the host supplied one), with the
context it was given. -/
structure PasteOutcome (α : Type) where
  newState : ToolState
  rendered : Option (RenderResult α)
  onpasteCall : Option PluginCtx
deriving Repr, DecidableEq

/-- The shared tail of each `onPaste` branch after the data assignment:
`onpaste()` invokes `config.onpaste` with the plugin context exactly when
the host supplied that callback. -/
def afterPasteAssign {α : Type} (api : Api) (cfg : Config)
    (r : SetDataResult α) : PasteOutcome α :=
  { newState := r.newState
    rendered := r.rendered
    onpasteCall :=
      if cfg.hasOnpaste then some (onpasteCtxOf r.newState api cfg) else none }

/-- The synchronous part of `onPaste(event)` (built bundle `part_002`;
the data assignments are those of `part_001` lines 128–156, which go
through the `data` setter): `tag` assigns `{ url: img.src }`, `pattern`
assigns `{ url: text }`, and each then runs `onpaste()`; `file` only
starts `onDropHandler(file)` — its assignment and `onpaste()` run later,
in the promise continuation modelled by `onPasteFileResolved`. -/
def onPaste {α : Type} (st : ToolState) (api : Api) (cfg : Config)
    (view : ViewCtx → α) : PasteEvent → PasteOutcome α
  | PasteEvent.tag image =>
      afterPasteAssign api cfg (setData st api cfg view { url := some image.src })
  | PasteEvent.pattern text =>
      afterPasteAssign api cfg (setData st api cfg view { url := some text })
  | PasteEvent.file _ =>
      { newState := st, rendered := none, onpasteCall := none }

/-- The `file` branch's promise continuation
(`.then(data => { this.data = data; onpaste(); })`), run once the file
read completes with the record `d` that `onDropHandler`'s promise
resolved with. -/
def onPasteFileResolved {α : Type} (st : ToolState) (api : Api) (cfg : Config)
    (view : ViewCtx → α) (d : SimpleImageData) : PasteOutcome α :=
  afterPasteAssign api cfg (setData st api cfg view d)

/-- What the constructor produces: the initial tool state and the
invocation of the host's `config.initialize` callback (if supplied),
with the context it was given. -/
structure ConstructorResult where
  state : ToolState
  initializeCall : Option PluginCtx
deriving Repr, DecidableEq

/-- The constructor (`part_000` lines 23–47, identical in both bundles):
store `id` (a fresh random string, taken here as a parameter), `api`,
`config` and `data`; set `this.blockIndex =
api.blocks.getCurrentBlockIndex() + 1`; then, if the host supplied
`config.initialize`, invoke it once with `{ pluginId, pluginApi,
pluginBlockIndex, pluginData, pluginUserConfig }`.  Nothing else runs
during construction. -/
def constructorRun (id : String) (data : SimpleImageData) (cfg : Config)
    (api : Api) : ConstructorResult :=
  let blockIndex := api.currentBlockIndex + 1
  let st : ToolState := { id := id, blockIndex := blockIndex, _data := data }
  { state := st
    initializeCall :=
      if cfg.hasInitialize then
        some { pluginId := id
               pluginApi := api
               pluginBlockIndex := blockIndex
               pluginData := data
               pluginUserConfig := cfg }
      else none }

end SimpleImage

open SimpleImage

/-- C1: For every block-content element passed to `save`: if the
element contains no `img` descendant, `save` returns the tool's stored
data record unchanged; otherwise `save` returns the stored data record
with its `url` field set to the `src` of the first `img` descendant (and
its other fields unchanged), so in both cases the result is a
`{url}`-shaped record. -/
theorem C1_save_returns_data_with_url_of_first_img
    (d : SimpleImageData) (blockContent : List ImgElement) :
    (querySelectorImg blockContent = none → save d blockContent = d) ∧
    (∀ image, querySelectorImg blockContent = some image →
      save d blockContent =
        { url := some image.src
          naturalWidth := d.naturalWidth
          naturalHeight := d.naturalHeight }) := by
  constructor
  · intro h
    simp [save, h]
  · intro image h
    simp [save, h, objAssign, Option.orElse]

/-- Witness for C1: a block whose first `img` descendant has
`src = "http://a/x.png"` saves to the stored record with that url. -/
theorem C1_witness :
    save { url := some "old", naturalWidth := some 3 }
        [{ src := "http://a/x.png" }, { src := "http://b/y.png" }] =
      { url := some "http://a/x.png", naturalWidth := some 3, naturalHeight := none } :=
  (C1_save_returns_data_with_url_of_first_img
      { url := some "old", naturalWidth := some 3 }
      [{ src := "http://a/x.png" }, { src := "http://b/y.png" }]).2
    { src := "http://a/x.png" } rfl

/-- Characterisation of the image `render` creates when `data.url` is
truthy: it exists and its `src` is exactly the url. -/
theorem mkRenderImage_truthy (d : SimpleImageData) (h : dataUrlTruthy d = true) :
    (mkRenderImage d).map ImgElement.src = d.url ∧ (mkRenderImage d).isSome = true := by
  cases hu : d.url with
  | none => simp [dataUrlTruthy, hu] at h
  | some s =>
    simp only [dataUrlTruthy, hu, decide_eq_true_eq] at h
    simp [mkRenderImage, hu, h]

/-- When `data.url` is falsy (absent or empty), `render` creates no
image. -/
theorem mkRenderImage_falsy (d : SimpleImageData) (h : dataUrlTruthy d = false) :
    mkRenderImage d = none := by
  cases hu : d.url with
  | none => simp [mkRenderImage, hu]
  | some s =>
    simp only [dataUrlTruthy, hu, decide_eq_false_iff_not, not_not] at h
    simp [mkRenderImage, hu, h]

/-- Sample host api used by the concrete witnesses. -/
def sampleApi : Api := { currentBlockIndex := 0 }

/-- Sample host config (all optional callbacks supplied) used by the
concrete witnesses. -/
def sampleCfg : Config := { hasInitialize := true, hasOnpaste := true }

/-- Sample `config.view` callback used by the concrete witnesses. -/
def sampleView : ViewCtx → Nat := fun _ => 0

/-- Sample tool state with an empty data record. -/
def sampleState : ToolState := { id := "tool1", blockIndex := 1, _data := {} }

/-- Sample tool state whose data record holds a nonempty url. -/
def sampleStateUrl : ToolState :=
  { id := "tool1", blockIndex := 1, _data := { url := some "http://a/x.png" } }

/-- C2: For every paste event: `tag` sets the tool's data to a record
whose url is the pasted element's `src`; `pattern` to a record whose url
is the matched text; `file` to the record `onDropHandler`'s promise
resolved with once reading completed.  After each of the three updates,
the `config.onpaste` callback, when the host supplied one, is invoked
with the plugin context. -/
theorem C2_onPaste_variants_update_data_then_fire_onpaste
    {α : Type} (st : ToolState) (api : Api) (cfg : Config) (view : ViewCtx → α) :
    (∀ image : ImgElement,
      (onPaste st api cfg view (PasteEvent.tag image)).newState._data.url = some image.src ∧
      (cfg.hasOnpaste = true →
        (onPaste st api cfg view (PasteEvent.tag image)).onpasteCall =
          some (onpasteCtxOf (onPaste st api cfg view (PasteEvent.tag image)).newState api cfg))) ∧
    (∀ text : String,
      (onPaste st api cfg view (PasteEvent.pattern text)).newState._data.url = some text ∧
      (cfg.hasOnpaste = true →
        (onPaste st api cfg view (PasteEvent.pattern text)).onpasteCall =
          some (onpasteCtxOf (onPaste st api cfg view (PasteEvent.pattern text)).newState api cfg))) ∧
    (∀ (f : File) (d : SimpleImageData),
      onDropHandlerPromise (some (readerLoadEvent f)) = PromiseState.resolved d →
      (onPasteFileResolved st api cfg view d).newState._data.url = some f.dataURL ∧
      (cfg.hasOnpaste = true →
        (onPasteFileResolved st api cfg view d).onpasteCall =
          some (onpasteCtxOf (onPasteFileResolved st api cfg view d).newState api cfg))) := by
  refine ⟨?_, ?_, ?_⟩
  · intro image
    refine ⟨rfl, fun h => ?_⟩
    simp [onPaste, afterPasteAssign, h]
  · intro text
    refine ⟨rfl, fun h => ?_⟩
    simp [onPaste, afterPasteAssign, h]
  · intro f d hd
    have hd' : d = { url := some f.dataURL } := by
      simpa [onDropHandlerPromise, readerLoadEvent] using hd.symm
    subst hd'
    refine ⟨rfl, fun h => ?_⟩
    simp [onPasteFileResolved, afterPasteAssign, h]

/-- Witness for C2: a `tag` paste of an `img` with
`src = "http://a/x.png"` into a fresh tool updates the data record's url
and invokes the supplied `config.onpaste` with the plugin context. -/
theorem C2_witness :
    (onPaste sampleState sampleApi sampleCfg sampleView
        (PasteEvent.tag { src := "http://a/x.png" })).newState._data.url =
      some "http://a/x.png" ∧
    (onPaste sampleState sampleApi sampleCfg sampleView
        (PasteEvent.tag { src := "http://a/x.png" })).onpasteCall =
      some (onpasteCtxOf
        (onPaste sampleState sampleApi sampleCfg sampleView
          (PasteEvent.tag { src := "http://a/x.png" })).newState sampleApi sampleCfg) := by
  have h := (C2_onPaste_variants_update_data_then_fire_onpaste
    sampleState sampleApi sampleCfg sampleView).1 { src := "http://a/x.png" }
  exact ⟨h.1, h.2 rfl⟩

/-- C3: For every render of a data record with a nonempty url, an image
element is created with that url as its `src` and a load promise is
handed to the host as `pluginImagePromise`; if the image fires its
`error` event, that promise is rejected and the tool state is left
untouched — no retry or other recovery is performed. -/
theorem C3_render_image_error_rejects_promise
    (st : ToolState) (api : Api) (cfg : Config)
    (h : dataUrlTruthy st._data = true) :
    ((renderCtx st api cfg).pluginImage.map ImgElement.src = st._data.url ∧
      (renderCtx st api cfg).pluginImagePromise = true) ∧
    (∀ image : ImgElement,
      renderImageEvent st image ImgEvent.error = (st, PromiseState.rejected)) := by
  obtain ⟨hsrc, hsome⟩ := mkRenderImage_truthy st._data h
  exact ⟨⟨hsrc, by simp [renderCtx, hsome]⟩, fun image => rfl⟩

/-- Witness for C3: on a tool whose data url is `"http://a/x.png"`, the
`error` event of the created image rejects the promise and leaves the
state unchanged. -/
theorem C3_witness :
    renderImageEvent sampleStateUrl { src := "http://a/x.png" } ImgEvent.error =
      (sampleStateUrl, PromiseState.rejected) :=
  (C3_render_image_error_rejects_promise sampleStateUrl sampleApi sampleCfg
    (by decide)).2 { src := "http://a/x.png" }

/-- C4: For every file given to `onDropHandler`, the returned promise
resolves (once the reader's `load` event delivers the `readAsDataURL`
result) to a record whose url field is the file's contents encoded as a
data URL. -/
theorem C4_onDropHandler_resolves_with_data_url (f : File) :
    onDropHandlerPromise (some (readerLoadEvent f)) =
      PromiseState.resolved { url := some f.dataURL } := rfl

/-- C5: For every call, `render` returns the value produced by the
host-supplied `config.view` callback, invoked with the plugin context
(id, api, data, user config), and additionally with the created image
element (whose `src` is `data.url`) and its load promise when
`data.url` is nonempty, and with undefined (`none` / absent) image and
promise when `data.url` is empty. -/
theorem C5_render_returns_view_of_plugin_context
    {α : Type} (st : ToolState) (api : Api) (cfg : Config) (view : ViewCtx → α) :
    (render st api cfg view).returned = view (renderCtx st api cfg) ∧
    ((renderCtx st api cfg).pluginId = st.id ∧
      (renderCtx st api cfg).pluginApi = api ∧
      (renderCtx st api cfg).pluginData = st._data ∧
      (renderCtx st api cfg).pluginUserConfig = cfg) ∧
    (dataUrlTruthy st._data = true →
      (renderCtx st api cfg).pluginImage.map ImgElement.src = st._data.url ∧
      (renderCtx st api cfg).pluginImagePromise = true) ∧
    (dataUrlTruthy st._data = false →
      (renderCtx st api cfg).pluginImage = none ∧
      (renderCtx st api cfg).pluginImagePromise = false) := by
  refine ⟨rfl, ⟨rfl, rfl, rfl, rfl⟩, ?_, ?_⟩
  · intro h
    obtain ⟨hsrc, hsome⟩ := mkRenderImage_truthy st._data h
    exact ⟨hsrc, by simp [renderCtx, hsome]⟩
  · intro h
    have hnone := mkRenderImage_falsy st._data h
    exact ⟨by simp [renderCtx, hnone], by simp [renderCtx, hnone]⟩

/-- Witness for C5: on a tool with an empty data record, `render` hands
`config.view` an undefined image and an undefined promise, and returns
the view's value. -/
theorem C5_witness :
    (render sampleState sampleApi sampleCfg sampleView).returned =
      sampleView (renderCtx sampleState sampleApi sampleCfg) ∧
    (renderCtx sampleState sampleApi sampleCfg).pluginImage = none ∧
    (renderCtx sampleState sampleApi sampleCfg).pluginImagePromise = false := by
  have h := C5_render_returns_view_of_plugin_context sampleState sampleApi sampleCfg sampleView
  exact ⟨h.1, h.2.2.2 (by decide)⟩

/-- C6: For a data record whose `naturalWidth` / `naturalHeight` are
absent, they stay absent through the synchronous part of `render` (the
record the view callback sees still lacks them, and `render` leaves the
state untouched); they are populated only by the image's `load` event,
whose callback sets them to the loaded element's natural width and
height. -/
theorem C6_natural_dims_populated_only_on_load
    (st : ToolState) (api : Api) (cfg : Config)
    (hw : st._data.naturalWidth = none) (hh : st._data.naturalHeight = none) :
    ((renderCtx st api cfg).pluginData.naturalWidth = none ∧
      (renderCtx st api cfg).pluginData.naturalHeight = none ∧
      ∀ (view : ViewCtx → Nat), (render st api cfg view).newState = st) ∧
    (∀ (image : ImgElement) (w h : Nat),
      (renderImageEvent st image (ImgEvent.load w h)).1._data.naturalWidth = some w ∧
      (renderImageEvent st image (ImgEvent.load w h)).1._data.naturalHeight = some h) := by
  refine ⟨⟨?_, ?_, fun view => rfl⟩, fun image w h => ⟨rfl, rfl⟩⟩
  · simpa [renderCtx] using hw
  · simpa [renderCtx] using hh

/-- Witness for C6: on a fresh tool whose record holds only a url, the
`load` event with natural dimensions 640×480 populates the record with
exactly those numbers. -/
theorem C6_witness :
    (renderImageEvent sampleStateUrl { src := "http://a/x.png" }
        (ImgEvent.load 640 480)).1._data.naturalWidth = some 640 ∧
    (renderImageEvent sampleStateUrl { src := "http://a/x.png" }
        (ImgEvent.load 640 480)).1._data.naturalHeight = some 480 :=
  (C6_natural_dims_populated_only_on_load sampleStateUrl sampleApi sampleCfg
    rfl rfl).2 { src := "http://a/x.png" } 640 480

/-- C7: On construction, the tool records a block index equal to the
host api's current block index plus one, and, exactly when the host
supplied a `config.initialize` callback, invokes it (exactly once —
the constructor's single conditional call, before any method can run)
with the plugin id, api, block index, data, and user config. -/
theorem C7_constructor_block_index_and_initialize
    (id : String) (data : SimpleImageData) (cfg : Config) (api : Api) :
    (constructorRun id data cfg api).state.blockIndex = api.currentBlockIndex + 1 ∧
    (cfg.hasInitialize = true →
      (constructorRun id data cfg api).initializeCall =
        some { pluginId := id
               pluginApi := api
               pluginBlockIndex := api.currentBlockIndex + 1
               pluginData := data
               pluginUserConfig := cfg }) ∧
    (cfg.hasInitialize = false →
      (constructorRun id data cfg api).initializeCall = none) := by
  refine ⟨rfl, fun h => ?_, fun h => ?_⟩
  · simp [constructorRun, h]
  · simp [constructorRun, h]

/-- Witness for C7: constructing with current block index 0 and a config
that supplies `initialize` records block index 1 and invokes
`initialize` once with the full plugin context. -/
theorem C7_witness :
    (constructorRun "tool1" {} sampleCfg sampleApi).state.blockIndex = 1 ∧
    (constructorRun "tool1" {} sampleCfg sampleApi).initializeCall =
      some { pluginId := "tool1"
             pluginApi := sampleApi
             pluginBlockIndex := 1
             pluginData := {}
             pluginUserConfig := sampleCfg } := by
  have h := C7_constructor_block_index_and_initialize "tool1" {} sampleCfg sampleApi
  exact ⟨h.1, h.2.1 rfl⟩

/-- C8: Every assignment to the tool's `data` property merges the
assigned record into the existing one (`Object.assign({}, old, patch)`),
so fields not present in the assigned record are unchanged; in
particular, previously recorded `naturalWidth` and `naturalHeight`
survive a later assignment of a `{url}`-only record. -/
theorem C8_data_setter_merges_preserving_absent_fields
    {α : Type} (st : ToolState) (api : Api) (cfg : Config) (view : ViewCtx → α)
    (patch : SimpleImageData) :
    (setData st api cfg view patch).newState._data = objAssign st._data patch ∧
    (patch.naturalWidth = none →
      (setData st api cfg view patch).newState._data.naturalWidth =
        st._data.naturalWidth) ∧
    (patch.naturalHeight = none →
      (setData st api cfg view patch).newState._data.naturalHeight =
        st._data.naturalHeight) ∧
    (∀ u : String,
      (setData st api cfg view { url := some u }).newState._data =
        { url := some u
          naturalWidth := st._data.naturalWidth
          naturalHeight := st._data.naturalHeight }) := by
  refine ⟨rfl, fun h => ?_, fun h => ?_, fun u => ?_⟩
  · simp [setData, objAssign, h]
  · simp [setData, objAssign, h]
  · simp [setData, objAssign]

/-- Witness for C8: a tool that already recorded 640×480 keeps those
dimensions when a `{url}`-only record is assigned. -/
theorem C8_witness :
    (setData
        { id := "tool1", blockIndex := 1
          _data := { url := some "http://a/x.png"
                     naturalWidth := some 640
                     naturalHeight := some 480 } }
        sampleApi sampleCfg sampleView
        { url := some "http://b/y.png" }).newState._data =
      { url := some "http://b/y.png"
        naturalWidth := some 640
        naturalHeight := some 480 } :=
  (C8_data_setter_merges_preserving_absent_fields
      { id := "tool1", blockIndex := 1
        _data := { url := some "http://a/x.png"
                   naturalWidth := some 640
                   naturalHeight := some 480 } }
      sampleApi sampleCfg sampleView { url := some "http://b/y.png" }).2.2.2
    "http://b/y.png"

/-- C9: An assignment to the tool's `data` property whose merged result
has a nonempty url triggers a re-render — the host's `config.view`
callback is invoked again, on the merged state, as a side effect of the
assignment; an assignment whose merged result has an empty (or absent)
url performs no render, so the view callback is not invoked. -/
theorem C9_data_setter_rerenders_iff_url_truthy
    {α : Type} (st : ToolState) (api : Api) (cfg : Config) (view : ViewCtx → α)
    (patch : SimpleImageData) :
    (dataUrlTruthy (objAssign st._data patch) = true →
      (setData st api cfg view patch).rendered =
        some (render (setData st api cfg view patch).newState api cfg view) ∧
      (setData st api cfg view patch).rendered.map RenderResult.returned =
        some (view (renderCtx (setData st api cfg view patch).newState api cfg))) ∧
    (dataUrlTruthy (objAssign st._data patch) = false →
      (setData st api cfg view patch).rendered = none) := by
  constructor
  · intro h
    constructor
    · simp [setData, h]
    · simp [setData, h, render]
  · intro h
    simp [setData, h]

/-- Witness for C9: assigning `{url: "http://a/x.png"}` to a fresh tool
re-renders (the view callback is invoked on the merged state), as shown
by the recorded render effect. -/
theorem C9_witness :
    (setData sampleState sampleApi sampleCfg sampleView
        { url := some "http://a/x.png" }).rendered.map RenderResult.returned =
      some (sampleView
        (renderCtx
          (setData sampleState sampleApi sampleCfg sampleView
            { url := some "http://a/x.png" }).newState sampleApi sampleCfg)) :=
  ((C9_data_setter_rerenders_iff_url_truthy sampleState sampleApi sampleCfg
      sampleView { url := some "http://a/x.png" }).1 (by decide)).2

/-- C10: The promise returned by `onDropHandler` never rejects: after
any reader event (or none) it is either still pending or resolved, and
when the reader's `error` event fires instead of `load`, it stays
pending forever, so a caller awaiting it never observes an error. -/
theorem C10_onDropHandler_promise_never_rejects :
    (∀ e : Option ReaderEvent,
      onDropHandlerPromise e = PromiseState.pending ∨
      ∃ d, onDropHandlerPromise e = PromiseState.resolved d) ∧
    onDropHandlerPromise (some ReaderEvent.error) = PromiseState.pending := by
  refine ⟨fun e => ?_, rfl⟩
  match e with
  | none => exact Or.inl rfl
  | some ReaderEvent.error => exact Or.inl rfl
  | some (ReaderEvent.load r) => exact Or.inr ⟨_, rfl⟩
